import Mathlib

/-!
Verification of the Avalon game engine (src/avalon/game.py, src/avalon/models.py).
The data model and the engine's operations are translated below as executable
Lean definitions; the theorems at the end of the file settle the claimed
properties of the engine.
-/

set_option maxHeartbeats 1000000
set_option linter.unreachableTactic false
set_option linter.unusedTactic false

namespace Avalon

/- ## Data model (src/avalon/models.py) -/

inductive Alignment
  | loyal
  | evil
deriving DecidableEq, Repr

inductive Phase
  | lobby
  | team_proposal
  | team_vote
  | quest
  | quest_result
  | lady_of_lake
  | assassination
  | game_over
deriving DecidableEq, Repr

inductive Role
  | merlin
  | percival
  | loyal_servant
  | assassin
  | morgana
  | mordred
  | oberon
  | minion
deriving DecidableEq, Repr

structure Player where
  id : String
  name : String
  is_bot : Bool := false
  role : Option Role := none
  claimed : Bool := false
  ready : Bool := false
deriving DecidableEq, Repr

structure ChatMessage where
  player_id : String
  message : String
deriving DecidableEq, Repr

structure QuestRecord where
  quest_number : Nat
  team : List String
  fails : Nat
  succeeded : Bool
deriving DecidableEq, Repr

structure GameConfig where
  player_count : Nat
  roles : List Role
  hammer_auto_approve : Bool := true
  lady_of_lake : Bool := false
deriving DecidableEq, Repr

/-- One entry of `GameState.lady_history` (a string-keyed dict in the source,
with the keys `holder_id`, `target_id`, `alignment`). -/
structure LadyEntry where
  holder_id : String
  target_id : String
  alignment : String
deriving DecidableEq, Repr

structure GameState where
  id : String
  config : GameConfig
  players : List Player
  started : Bool := false
  phase : Phase := Phase.lobby
  leader_index : Nat := 0
  quest_number : Nat := 1
  proposal_attempts : Nat := 0
  proposed_team : List String := []
  team_votes : List (String × Bool) := []
  quest_votes : List (String × Bool) := []
  quest_history : List QuestRecord := []
  success_count : Nat := 0
  fail_count : Nat := 0
  winner : Option Alignment := none
  assassin_target : Option String := none
  chat : List ChatMessage := []
  lady_holder_id : Option String := none
  lady_last_used_quest : Option Int := none
  lady_history : List LadyEntry := []
deriving DecidableEq, Repr

/-- Values appearing in event payloads and in action payloads. -/
inductive PVal
  | s (v : String)
  | b (v : Bool)
  | n (v : Nat)
  | ids (v : List String)
deriving DecidableEq, Repr

structure Event where
  type : String
  payload : List (String × PVal)
deriving DecidableEq, Repr

structure CreateGameRequest where
  players : List Player
  roles : Option (List Role) := none
  hammer_auto_approve : Bool := true
  lady_of_lake : Bool := true
deriving DecidableEq, Repr

/-- The `payload` dict of an action request: each key is either absent (`none`)
or holds some value. -/
structure Payload where
  message : Option PVal := none
  team : Option PVal := none
  approve : Option PVal := none
  success : Option PVal := none
  target_id : Option PVal := none
deriving DecidableEq, Repr

/- ## Role/alignment catalog (src/avalon/game.py, module level) -/

def EVIL_ROLES : List Role :=
  [Role.assassin, Role.morgana, Role.mordred, Role.oberon, Role.minion]

def QUEST_TEAM_SIZES : Nat → Option (List Nat)
  | 5 => some [2, 3, 2, 3, 3]
  | 6 => some [2, 3, 4, 3, 4]
  | 7 => some [2, 3, 3, 4, 4]
  | 8 => some [3, 4, 4, 5, 5]
  | 9 => some [3, 4, 4, 5, 5]
  | 10 => some [3, 4, 4, 5, 5]
  | _ => none

def DEFAULT_ROLE_SETS : Nat → Option (List Role)
  | 5 => some [Role.merlin, Role.percival, Role.loyal_servant, Role.assassin, Role.minion]
  | 6 => some [Role.merlin, Role.percival, Role.loyal_servant, Role.loyal_servant,
      Role.assassin, Role.morgana]
  | 7 => some [Role.merlin, Role.percival, Role.loyal_servant, Role.loyal_servant,
      Role.assassin, Role.morgana, Role.minion]
  | 8 => some [Role.merlin, Role.percival, Role.loyal_servant, Role.loyal_servant,
      Role.assassin, Role.morgana, Role.mordred, Role.minion]
  | 9 => some [Role.merlin, Role.percival, Role.loyal_servant, Role.loyal_servant,
      Role.loyal_servant, Role.assassin, Role.morgana, Role.mordred, Role.minion]
  | 10 => some [Role.merlin, Role.percival, Role.loyal_servant, Role.loyal_servant,
      Role.loyal_servant, Role.assassin, Role.morgana, Role.mordred, Role.oberon, Role.minion]
  | _ => none

def alignment_for (role : Role) : Alignment :=
  if role ∈ EVIL_ROLES then Alignment.evil else Alignment.loyal

def requires_two_fails (player_count quest_number : Nat) : Bool :=
  decide (7 ≤ player_count) && decide (quest_number = 4)

/-- `team_size` from the source.  Python indexes `sizes[quest_number - 1]`;
`quest_number = 0` hits Python's negative index -1 (the last element), any
other out-of-range index raises. -/
def team_size (player_count quest_number : Nat) : Except String Nat :=
  match QUEST_TEAM_SIZES player_count with
  | none => Except.error "Unsupported player count"
  | some sizes =>
    if quest_number = 0 then
      match sizes.getLast? with
      | some v => Except.ok v
      | none => Except.error "IndexError"
    else
      match sizes.get? (quest_number - 1) with
      | some v => Except.ok v
      | none => Except.error "IndexError"

def alignmentValue : Alignment → String
  | Alignment.loyal => "loyal"
  | Alignment.evil => "evil"

/- ## Dict helpers: association lists with Python-dict insert semantics -/

/-- `m[k] = v` on a Python dict: overwrite in place if the key exists,
append otherwise. -/
def dictInsert (m : List (String × Bool)) (k : String) (v : Bool) : List (String × Bool) :=
  match m with
  | [] => [(k, v)]
  | kv :: rest => if kv.1 = k then (k, v) :: rest else kv :: dictInsert rest k v

def dictKeys (m : List (String × Bool)) : List String :=
  m.map (fun kv => kv.1)

/- ## Engine helpers -/

def getPlayer? (st : GameState) (pid : String) : Option Player :=
  st.players.find? (fun p => decide (p.id = pid))

def hasPlayer (st : GameState) (pid : String) : Bool :=
  st.players.any (fun p => decide (p.id = pid))

def roleIsLoyal : Option Role → Bool
  | some r => decide (alignment_for r = Alignment.loyal)
  | none => false

/-- Result of one engine call: the error raised (if any), the game state
observable after the call, and the events appended to the external log. -/
structure ActResult where
  err : Option String
  state : GameState
  events : List Event
deriving DecidableEq, Repr

/-- A raised `ValueError`: the state at the moment of the raise is carried so
that theorems can talk about mutations preceding an error. -/
def failWith (msg : String) (st : GameState) : ActResult :=
  { err := some msg, state := st, events := [] }

/- ## Engine operations (src/avalon/game.py, GameEngine) -/

/-- `GameEngine.create_game`.  The engine's uuid for the new game is passed in
as `gid`.  Python's `req.roles or DEFAULT_ROLE_SETS.get(...)` treats an empty
role list like an absent one. -/
def create_game (gid : String) (req : CreateGameRequest) : Except String GameState :=
  let player_count := req.players.length
  let rolesFound : Option (List Role) :=
    match req.roles with
    | some rs => if rs = [] then DEFAULT_ROLE_SETS player_count else some rs
    | none => DEFAULT_ROLE_SETS player_count
  match rolesFound with
  | none => Except.error "Unsupported player count or roles not provided"
  | some roles =>
    if roles = [] then Except.error "Unsupported player count or roles not provided"
    else if roles.length ≠ player_count then Except.error "Role count must match player count"
    else if Role.morgana ∈ roles ∧ Role.percival ∉ roles then
      Except.error "Morgana requires Percival"
    else if ¬ (Role.merlin ∈ roles ∧ Role.assassin ∈ roles) then
      Except.error "Merlin and Assassin are required roles"
    else Except.ok
      { id := gid
        config :=
          { player_count := player_count
            roles := roles
            hammer_auto_approve := req.hammer_auto_approve
            lady_of_lake := req.lady_of_lake }
        players := req.players
        started := false
        phase := Phase.lobby }

/-- `GameEngine._assign_roles`: deal roles to players in list order;
`zip` truncates at the shorter list exactly as in Python. -/
def assign_roles : List Player → List Role → List Player
  | ps, [] => ps
  | [], _ => []
  | p :: ps, r :: rs => { p with role := some r } :: assign_roles ps rs

/-- `GameEngine.start_game`.  The uniform shuffle of `config.roles` is
represented by the `shuffled` argument (the list the roles are dealt from).
Python evaluates `state.players[0].id` after the writes of lines 154-159, so
on an empty player list with the lady option enabled an IndexError is raised
with the state already partially mutated; the error result carries that
partial state. -/
def start_game (st : GameState) (shuffled : List Role) : Option String × GameState :=
  if st.started then (none, st)
  else
    let players := assign_roles st.players shuffled
    let st1 := { st with
      players := players
      started := true
      phase := Phase.team_proposal
      leader_index := 0
      quest_number := 1
      proposal_attempts := 0 }
    if st.config.lady_of_lake then
      match players.head? with
      | none => (some "IndexError", st1)
      | some p0 =>
        (none, { st1 with
          lady_holder_id := some p0.id
          lady_last_used_quest := none
          lady_history := [] })
    else
      (none, { st1 with
        lady_holder_id := none
        lady_last_used_quest := none
        lady_history := [] })

/-- `GameEngine._handle_propose`. -/
def handle_propose (st : GameState) (pl : Player) (payload : Payload) : ActResult :=
  if st.phase ≠ Phase.team_proposal then failWith "Not in team proposal phase" st
  else
    match st.players.get? st.leader_index with
    | none => failWith "IndexError" st
    | some leader =>
      if pl.id ≠ leader.id then failWith "Only leader can propose" st
      else
        match payload.team.getD (PVal.ids []) with
        | PVal.ids team =>
          match team_size st.config.player_count st.quest_number with
          | Except.error e => failWith e st
          | Except.ok size =>
            if team.length ≠ size then failWith "Invalid team size" st
            else if ¬ team.Nodup then failWith "Team has duplicates" st
            else if ¬ (team.all (fun pid => hasPlayer st pid)) then
              failWith "Unknown player in team" st
            else
              let st1 := { st with proposed_team := team, team_votes := [] }
              let ev1 : Event :=
                { type := "team_proposed"
                  payload := [("leader_id", PVal.s leader.id), ("team", PVal.ids team)] }
              if st1.config.hammer_auto_approve = true ∧ 4 ≤ st1.proposal_attempts then
                { err := none
                  state := { st1 with phase := Phase.quest }
                  events := [ev1, { type := "team_hammered", payload := [("team", PVal.ids team)] }] }
              else
                { err := none, state := { st1 with phase := Phase.team_vote }, events := [ev1] }
        | _ => failWith "Team must be list of player IDs" st

/-- Lines 263-276 of `_handle_vote`: the tally once every player has voted,
applied to the state `st1` holding the inserted vote and the already-emitted
per-vote event `ev1`. -/
def team_vote_resolution (st1 : GameState) (ev1 : Event) : ActResult :=
  let approvals := (st1.team_votes.filter (fun kv => kv.2)).length
  let rejects := st1.players.length - approvals
  if rejects < approvals then
    { err := none
      state := { st1 with phase := Phase.quest, proposal_attempts := 0 }
      events := [ev1,
        { type := "team_approved"
          payload := [("approvals", PVal.n approvals), ("rejects", PVal.n rejects)] }] }
  else
    { err := none
      state := { st1 with
        proposal_attempts := st1.proposal_attempts + 1
        proposed_team := []
        team_votes := []
        phase := Phase.team_proposal
        leader_index := (st1.leader_index + 1) % st1.players.length }
      events := [ev1,
        { type := "team_rejected"
          payload := [("approvals", PVal.n approvals), ("rejects", PVal.n rejects)] }] }

/-- `GameEngine._handle_vote`. -/
def handle_vote (st : GameState) (pl : Player) (payload : Payload) : ActResult :=
  if st.phase ≠ Phase.team_vote then failWith "Not in team vote phase" st
  else
    match payload.approve with
    | some (PVal.b approve) =>
      let st1 := { st with team_votes := dictInsert st.team_votes pl.id approve }
      let ev1 : Event :=
        { type := "team_vote"
          payload := [("player_id", PVal.s pl.id), ("approve", PVal.b approve)] }
      if st1.team_votes.length < st1.players.length then
        { err := none, state := st1, events := [ev1] }
      else team_vote_resolution st1 ev1
    | _ => failWith "Approve must be boolean" st

/-- Lines 293-340 of `_handle_quest_vote`: the resolution once every team
member has voted, applied to the state `st1` holding the inserted vote and the
already-emitted per-vote event `ev1`. -/
def quest_resolution (st1 : GameState) (ev1 : Event) : ActResult :=
  let fails := (st1.quest_votes.filter (fun kv => !kv.2)).length
  let needed : Nat :=
    if requires_two_fails st1.config.player_count st1.quest_number then 2 else 1
  let succeeded : Bool := decide (fails < needed)
  let record : QuestRecord :=
    { quest_number := st1.quest_number
      team := st1.proposed_team
      fails := fails
      succeeded := succeeded }
  let st2 := { st1 with quest_history := st1.quest_history ++ [record] }
  let st3 : GameState :=
    if succeeded then { st2 with success_count := st2.success_count + 1 }
    else { st2 with fail_count := st2.fail_count + 1 }
  let ev2 : Event :=
    { type := "quest_resolved"
      payload := [("quest", PVal.n st1.quest_number), ("fails", PVal.n fails),
        ("succeeded", PVal.b succeeded)] }
  let st4 : GameState :=
    { st3 with proposed_team := [], team_votes := [], quest_votes := [] }
  if 3 ≤ st4.success_count then
    if st4.players.any (fun p => decide (p.role = some Role.merlin)) then
      { err := none, state := { st4 with phase := Phase.assassination }
        events := [ev1, ev2] }
    else
      { err := none
        state := { st4 with phase := Phase.game_over, winner := some Alignment.loyal }
        events := [ev1, ev2] }
  else if 3 ≤ st4.fail_count then
    { err := none
      state := { st4 with phase := Phase.game_over, winner := some Alignment.evil }
      events := [ev1, ev2] }
  else
    let st5 : GameState := { st4 with
      quest_number := st4.quest_number + 1
      leader_index := (st4.leader_index + 1) % st4.players.length
      proposal_attempts := 0 }
    if st5.config.lady_of_lake = true ∧ 3 ≤ st5.quest_number ∧
        st5.lady_last_used_quest ≠ some ((st5.quest_number : Int) - 1) then
      { err := none, state := { st5 with phase := Phase.lady_of_lake }
        events := [ev1, ev2] }
    else
      { err := none, state := { st5 with phase := Phase.team_proposal }
        events := [ev1, ev2] }

/-- `GameEngine._handle_quest_vote`. -/
def handle_quest_vote (st : GameState) (pl : Player) (payload : Payload) : ActResult :=
  if st.phase ≠ Phase.quest then failWith "Not in quest phase" st
  else if pl.id ∉ st.proposed_team then failWith "Only team members vote on quest" st
  else
    match payload.success with
    | some (PVal.b success) =>
      if roleIsLoyal pl.role && !success then failWith "Loyal players must submit success" st
      else
        let st1 := { st with quest_votes := dictInsert st.quest_votes pl.id success }
        let ev1 : Event :=
          { type := "quest_vote"
            payload := [("player_id", PVal.s pl.id), ("success", PVal.b success)] }
        if st1.quest_votes.length < st1.proposed_team.length then
          { err := none, state := st1, events := [ev1] }
        else quest_resolution st1 ev1
    | _ => failWith "Success must be boolean" st

/-- `GameEngine._handle_lady`.  Python's `if not target_id` makes an empty
target id invalid; a non-string `target_id` value also fails validation. -/
def handle_lady (st : GameState) (pl : Player) (payload : Payload) : ActResult :=
  if st.phase ≠ Phase.lady_of_lake then failWith "Not in Lady of the Lake phase" st
  else if st.config.lady_of_lake = false then failWith "Lady of the Lake is disabled" st
  else if st.lady_holder_id ≠ some pl.id then failWith "Only the Lady holder may act" st
  else
    match payload.target_id with
    | some (PVal.s tid) =>
      if tid = "" ∨ ¬ hasPlayer st tid then failWith "Valid target_id required" st
      else if tid = pl.id then failWith "Cannot target yourself" st
      else
        match getPlayer? st tid with
        | none => failWith "Unknown player" st
        | some target =>
          let alignment :=
            match target.role with
            | some r => alignmentValue (alignment_for r)
            | none => "unknown"
          { err := none
            state := { st with
              lady_history := st.lady_history ++
                [{ holder_id := pl.id, target_id := tid, alignment := alignment }]
              lady_holder_id := some tid
              lady_last_used_quest := some ((st.quest_number : Int) - 1)
              phase := Phase.team_proposal }
            events := [{ type := "lady_peek"
                         payload := [("holder_id", PVal.s pl.id), ("target_id", PVal.s tid)] }] }
    | _ => failWith "Valid target_id required" st

/-- `GameEngine._handle_assassinate`. -/
def handle_assassinate (st : GameState) (pl : Player) (payload : Payload) : ActResult :=
  if st.phase ≠ Phase.assassination then failWith "Not in assassination phase" st
  else if pl.role ≠ some Role.assassin then failWith "Only assassin can act" st
  else
    match payload.target_id with
    | some (PVal.s tid) =>
      if tid = "" ∨ ¬ hasPlayer st tid then failWith "Valid target_id required" st
      else
        match getPlayer? st tid with
        | none => failWith "Unknown player" st
        | some target =>
          { err := none
            state := { st with
              assassin_target := some tid
              winner := some (if target.role = some Role.merlin then Alignment.evil
                else Alignment.loyal)
              phase := Phase.game_over }
            events := [{ type := "assassination"
                         payload := [("target_id", PVal.s tid),
                           ("hit", PVal.b (decide (target.role = some Role.merlin)))] }] }
    | _ => failWith "Valid target_id required" st

/-- `GameEngine.apply_action`.  A non-string chat message is rejected by the
`ChatMessage` model's validation before any state is written; it is folded
into the `Message required` failure here. -/
def apply_action (st : GameState) (player_id : String) (action_type : String)
    (payload : Payload) : ActResult :=
  match getPlayer? st player_id with
  | none => failWith "Unknown player" st
  | some player =>
    if action_type = "chat" then
      match payload.message.getD (PVal.s "") with
      | PVal.s msg =>
        if msg = "" then failWith "Message required" st
        else
          { err := none
            state := { st with chat := st.chat ++ [{ player_id := player_id, message := msg }] }
            events := [{ type := "chat"
                         payload := [("player_id", PVal.s player_id), ("message", PVal.s msg)] }] }
      | _ => failWith "Message required" st
    else if st.started = false then failWith "Game not started" st
    else if action_type = "propose_team" then handle_propose st player payload
    else if action_type = "vote_team" then handle_vote st player payload
    else if action_type = "quest_vote" then handle_quest_vote st player payload
    else if action_type = "lady_peek" then handle_lady st player payload
    else if action_type = "assassinate" then handle_assassinate st player payload
    else failWith ("Unknown action: " ++ action_type) st

/-- The engine-level `create_game` step: `self._state` is reassigned only
after every validation has passed. -/
def engine_create (cur : Option GameState) (gid : String) (req : CreateGameRequest) :
    Option String × Option GameState :=
  match create_game gid req with
  | Except.error e => (some e, cur)
  | Except.ok st => (none, some st)

/-- The engine-level `start_game` step: raises when no game exists; the
engine keeps referencing the (possibly partially mutated) state object when
`start_game` itself raises. -/
def engine_start (cur : Option GameState) (shuffled : List Role) :
    Option String × Option GameState :=
  match cur with
  | none => (some "Game not created", none)
  | some st => ((start_game st shuffled).1, some (start_game st shuffled).2)

/- ## Projections (src/avalon/game.py, public_state / private_state_for) -/

/-- `GameEngine.public_state`: deep copy with every role cleared and the lady
history cleared. -/
def public_state (st : GameState) : GameState :=
  { st with
    players := st.players.map (fun p => { p with role := none })
    lady_history := [] }

/-- The `state`, `role` and `alignment` components of the dict returned by
`GameEngine.private_state_for`. -/
structure PrivateView where
  state : GameState
  role : Option Role
  alignment : Option Alignment
deriving DecidableEq, Repr

def private_state_for (st : GameState) (player_id : String) : Except String PrivateView :=
  match getPlayer? st player_id with
  | none => Except.error "Unknown player"
  | some player =>
    let pub := public_state st
    Except.ok
      { state := { pub with
          players := pub.players.map
            (fun p => if p.id = player_id then { p with role := player.role } else p) }
        role := player.role
        alignment :=
          match player.role with
          | some r => some (alignment_for r)
          | none => none }

/- ## Reachable states -/

/-- States reachable through the public operations.  `start_game`'s shuffle is
universally quantified, so every truly reachable state is covered. -/
inductive Reachable : GameState → Prop
  | created (gid : String) (req : CreateGameRequest) (st : GameState) :
      create_game gid req = Except.ok st → Reachable st
  | started (st : GameState) (shuffled : List Role) :
      Reachable st → Reachable (start_game st shuffled).2
  | acted (st : GameState) (pid action_type : String) (payload : Payload) :
      Reachable st → Reachable ((apply_action st pid action_type payload).state)

/-- The strengthened vote-key invariant used to settle the reachable-state
claim: quest-vote keys stay inside the proposed team, quest votes are empty
outside the quest phase, team-vote keys are always known player ids, and an
unstarted state is still in the lobby. -/
def VoteKeysInv (st : GameState) : Prop :=
  (∀ k ∈ dictKeys st.quest_votes, k ∈ st.proposed_team) ∧
  (st.phase ≠ Phase.quest → st.quest_votes = []) ∧
  (∀ k ∈ dictKeys st.team_votes, k ∈ st.players.map Player.id) ∧
  (st.started = false → st.phase = Phase.lobby)

/-- Event count stated by the amended C8 claim: every successful mutating call
appends one event, and additionally a second resolution event when the call
triggers the hammer rule or completes a team-vote or quest-vote tally. -/
def eventCountSpec (st : GameState) (pid action_type : String) (payload : Payload) : Nat :=
  if action_type = "propose_team" then
    if st.config.hammer_auto_approve = true ∧ 4 ≤ st.proposal_attempts then 2 else 1
  else if action_type = "vote_team" then
    match payload.approve with
    | some (PVal.b b) =>
      if (dictInsert st.team_votes pid b).length < st.players.length then 1 else 2
    | _ => 1
  else if action_type = "quest_vote" then
    match payload.success with
    | some (PVal.b b) =>
      if (dictInsert st.quest_votes pid b).length < st.proposed_team.length then 1 else 2
    | _ => 1
  else 1

/- ## Concrete fixtures used by witnesses and counterexamples -/

def fivePlayers : List Player :=
  [{ id := "p0", name := "A" }, { id := "p1", name := "B" }, { id := "p2", name := "C" },
   { id := "p3", name := "D" }, { id := "p4", name := "E" }]

def rolesFive : List Role :=
  [Role.merlin, Role.percival, Role.loyal_servant, Role.assassin, Role.minion]

def reqFive : CreateGameRequest :=
  { players := fivePlayers, roles := some rolesFive }

def cfgFive : GameConfig :=
  { player_count := 5, roles := rolesFive, hammer_auto_approve := true, lady_of_lake := true }

def sCreated : GameState :=
  { id := "g", config := cfgFive, players := fivePlayers }

def sStarted : GameState := (start_game sCreated rolesFive).2

def proposePayload : Payload := { team := some (PVal.ids ["p0", "p1"]) }

def approvePayload : Payload := { approve := some (PVal.b true) }

def successPayload : Payload := { success := some (PVal.b true) }

def sProposed : GameState :=
  (apply_action sStarted "p0" "propose_team" proposePayload).state

def sOneVote : GameState :=
  (apply_action sProposed "p2" "vote_team" approvePayload).state

/-- The five players with the default roles dealt in list order. -/
def basePlayers : List Player := assign_roles fivePlayers rolesFive

/-- A team-vote state in which four of the five players have voted. -/
def sVoteAlmost : GameState :=
  { id := "g", config := cfgFive, players := basePlayers, started := true
    phase := Phase.team_vote, proposed_team := ["p0", "p1"]
    team_votes := [("p0", true), ("p1", true), ("p2", true), ("p3", true)] }

/-- A Lady-of-the-Lake phase state in round 3 with holder `p0`. -/
def sLady : GameState :=
  { id := "g", config := cfgFive, players := basePlayers, started := true
    phase := Phase.lady_of_lake, quest_number := 3, success_count := 1, fail_count := 1
    lady_holder_id := some "p0" }

def ladyPayload : Payload := { target_id := some (PVal.s "p1") }

/-- A quest-phase state with two successes banked in which one more vote
resolves the quest. -/
def sQuest3 : GameState :=
  { id := "g", config := cfgFive, players := basePlayers, started := true
    phase := Phase.quest, quest_number := 3, success_count := 2
    proposed_team := ["p0", "p1"], quest_votes := [("p0", true)] }

/-- Like `sQuest3` but in round 2 with one success, so the resolution
continues the game. -/
def sQuest2 : GameState :=
  { id := "g", config := cfgFive, players := basePlayers, started := true
    phase := Phase.quest, quest_number := 2, success_count := 1
    proposed_team := ["p0", "p1", "p4"], quest_votes := [("p0", true), ("p1", true)] }

def rolesNoMerlin : List Role :=
  [Role.assassin, Role.loyal_servant, Role.loyal_servant, Role.loyal_servant, Role.minion]

/-- A quest-phase state whose player set contains the Assassin but no Merlin. -/
def sNoMerlin : GameState :=
  { id := "g"
    config := { player_count := 5, roles := rolesNoMerlin }
    players := assign_roles fivePlayers rolesNoMerlin
    started := true
    phase := Phase.quest, quest_number := 3, success_count := 2
    proposed_team := ["p0", "p1"], quest_votes := [("p0", true)] }

/-- An assassination-phase state; `p3` holds the Assassin role. -/
def sAssassination : GameState :=
  { id := "g", config := cfgFive, players := basePlayers, started := true
    phase := Phase.assassination }

def selfTargetPayload : Payload := { target_id := some (PVal.s "p3") }

def emptyPayload : Payload := {}

/- ## Basic lemmas about the helpers -/

theorem assign_roles_map_id (ps : List Player) (rs : List Role) :
    (assign_roles ps rs).map Player.id = ps.map Player.id := by
  induction ps generalizing rs with
  | nil => cases rs <;> simp [assign_roles]
  | cons p rest ih =>
    cases rs with
    | nil => simp [assign_roles]
    | cons r rrest => simp [assign_roles, ih]

theorem getPlayer?_id {st : GameState} {pid : String} {pl : Player}
    (h : getPlayer? st pid = some pl) : pl.id = pid := by
  have h2 := List.find?_some h
  simpa using h2

theorem getPlayer?_mem {st : GameState} {pid : String} {pl : Player}
    (h : getPlayer? st pid = some pl) : pl ∈ st.players :=
  List.mem_of_find?_eq_some h

theorem hasPlayer_of_getPlayer? {st : GameState} {pid : String} {pl : Player}
    (h : getPlayer? st pid = some pl) : hasPlayer st pid = true := by
  have hm := getPlayer?_mem h
  have hid := getPlayer?_id h
  unfold hasPlayer
  rw [List.any_eq_true]
  exact ⟨pl, hm, by simp [hid]⟩

theorem dictKeys_cons (kv : String × Bool) (l : List (String × Bool)) :
    dictKeys (kv :: l) = kv.1 :: dictKeys l := rfl

theorem dictKeys_length (m : List (String × Bool)) : (dictKeys m).length = m.length := by
  simp [dictKeys]

theorem mem_dictKeys_dictInsert (m : List (String × Bool)) (k : String) (v : Bool)
    (x : String) : x ∈ dictKeys (dictInsert m k v) ↔ x ∈ dictKeys m ∨ x = k := by
  induction m with
  | nil => simp [dictInsert, dictKeys]
  | cons kv rest ih =>
    obtain ⟨k0, v0⟩ := kv
    by_cases h : k0 = k
    · subst h
      simp [dictInsert, dictKeys_cons, List.mem_cons]
      tauto
    · simp only [dictInsert, if_neg h, dictKeys_cons, List.mem_cons, ih]
      tauto

theorem dictKeys_nodup_dictInsert {m : List (String × Bool)} (k : String) (v : Bool)
    (h : (dictKeys m).Nodup) : (dictKeys (dictInsert m k v)).Nodup := by
  induction m with
  | nil => simp [dictInsert, dictKeys]
  | cons kv rest ih =>
    obtain ⟨k0, v0⟩ := kv
    rw [dictKeys_cons, List.nodup_cons] at h
    by_cases hk : k0 = k
    · subst hk
      simp [dictInsert, dictKeys_cons, List.nodup_cons]
      exact ⟨h.1, h.2⟩
    · simp only [dictInsert, if_neg hk, dictKeys_cons, List.nodup_cons]
      refine ⟨?_, ih h.2⟩
      rw [mem_dictKeys_dictInsert]
      rintro (hmem | hEq)
      · exact h.1 hmem
      · exact hk hEq

theorem length_filter_partition (l : List (String × Bool)) (f : String × Bool → Bool) :
    (l.filter f).length + (l.filter (fun kv => !(f kv))).length = l.length := by
  have h := List.length_eq_length_filter_add (l := l) f
  omega

/-- The engine's dispatch on the five post-start action types. -/
theorem apply_action_dispatch {st : GameState} {pid : String} {pl : Player}
    (payload : Payload) (hpl : getPlayer? st pid = some pl) (hst : st.started = true) :
    apply_action st pid "propose_team" payload = handle_propose st pl payload ∧
    apply_action st pid "vote_team" payload = handle_vote st pl payload ∧
    apply_action st pid "quest_vote" payload = handle_quest_vote st pl payload ∧
    apply_action st pid "lady_peek" payload = handle_lady st pl payload ∧
    apply_action st pid "assassinate" payload = handle_assassinate st pl payload := by
  refine ⟨?_, ?_, ?_, ?_, ?_⟩ <;>
    (unfold apply_action; rw [hpl]; simp [hst])

/-- A completed team vote hands the inserted-vote state to the tally. -/
theorem handle_vote_resolves (st : GameState) (pl : Player) (payload : Payload) (b : Bool)
    (hph : st.phase = Phase.team_vote)
    (hpay : payload.approve = some (PVal.b b))
    (hfull : ¬ (dictInsert st.team_votes pl.id b).length < st.players.length) :
    handle_vote st pl payload =
      team_vote_resolution { st with team_votes := dictInsert st.team_votes pl.id b }
        { type := "team_vote"
          payload := [("player_id", PVal.s pl.id), ("approve", PVal.b b)] } := by
  unfold handle_vote
  rw [hpay]
  simp [hph, hfull]

/-- A completed quest vote hands the inserted-vote state to the resolution. -/
theorem handle_quest_vote_resolves (st : GameState) (pl : Player) (payload : Payload)
    (b : Bool)
    (hph : st.phase = Phase.quest)
    (hmem : pl.id ∈ st.proposed_team)
    (hpay : payload.success = some (PVal.b b))
    (hloyal : (roleIsLoyal pl.role && !b) = false)
    (hfull : ¬ (dictInsert st.quest_votes pl.id b).length < st.proposed_team.length) :
    handle_quest_vote st pl payload =
      quest_resolution { st with quest_votes := dictInsert st.quest_votes pl.id b }
        { type := "quest_vote"
          payload := [("player_id", PVal.s pl.id), ("success", PVal.b b)] } := by
  unfold handle_quest_vote
  rw [hpay]
  simp [hph, hmem, hloyal, hfull]

/- ## Error results leave the state unchanged: per-handler lemmas -/

theorem handle_propose_err_state (st : GameState) (pl : Player) (payload : Payload) :
    (handle_propose st pl payload).err.isSome →
      (handle_propose st pl payload).state = st ∧ (handle_propose st pl payload).events = [] := by
  unfold handle_propose
  repeat' split
  all_goals try simp [failWith]
  all_goals try (repeat' split)
  all_goals try simp [failWith]
  all_goals try (repeat' split)
  all_goals try simp [failWith]

theorem handle_vote_err_state (st : GameState) (pl : Player) (payload : Payload) :
    (handle_vote st pl payload).err.isSome →
      (handle_vote st pl payload).state = st ∧ (handle_vote st pl payload).events = [] := by
  unfold handle_vote team_vote_resolution
  repeat' split
  all_goals try simp [failWith]
  all_goals try (repeat' split)
  all_goals try simp [failWith]
  all_goals try (repeat' split)
  all_goals try simp [failWith]

theorem handle_quest_vote_err_state (st : GameState) (pl : Player) (payload : Payload) :
    (handle_quest_vote st pl payload).err.isSome →
      (handle_quest_vote st pl payload).state = st ∧
      (handle_quest_vote st pl payload).events = [] := by
  unfold handle_quest_vote quest_resolution
  repeat' split
  all_goals try simp [failWith]
  all_goals try (repeat' split)
  all_goals try simp [failWith]
  all_goals try (repeat' split)
  all_goals try simp [failWith]

theorem handle_lady_err_state (st : GameState) (pl : Player) (payload : Payload) :
    (handle_lady st pl payload).err.isSome →
      (handle_lady st pl payload).state = st ∧ (handle_lady st pl payload).events = [] := by
  unfold handle_lady
  repeat' split
  all_goals try simp [failWith]
  all_goals try (repeat' split)
  all_goals try simp [failWith]
  all_goals try (repeat' split)
  all_goals try simp [failWith]

theorem handle_assassinate_err_state (st : GameState) (pl : Player) (payload : Payload) :
    (handle_assassinate st pl payload).err.isSome →
      (handle_assassinate st pl payload).state = st ∧
      (handle_assassinate st pl payload).events = [] := by
  unfold handle_assassinate
  repeat' split
  all_goals try simp [failWith]
  all_goals try (repeat' split)
  all_goals try simp [failWith]
  all_goals try (repeat' split)
  all_goals try simp [failWith]

theorem apply_action_err_state (st : GameState) (pid action_type : String)
    (payload : Payload) :
    (apply_action st pid action_type payload).err.isSome →
      (apply_action st pid action_type payload).state = st ∧
      (apply_action st pid action_type payload).events = [] := by
  unfold apply_action
  repeat' split
  all_goals first
    | exact handle_propose_err_state _ _ _
    | exact handle_vote_err_state _ _ _
    | exact handle_quest_vote_err_state _ _ _
    | exact handle_lady_err_state _ _ _
    | exact handle_assassinate_err_state _ _ _
    | simp [failWith]

/-- A Nodup list of player ids admits at most one player with a given id. -/
theorem filter_id_length_le_one (l : List Player) (pid : String)
    (hnd : (l.map Player.id).Nodup) :
    (l.filter (fun r => decide (r.id = pid))).length ≤ 1 := by
  induction l with
  | nil => simp
  | cons a rest ih =>
    rw [List.map_cons, List.nodup_cons] at hnd
    by_cases ha : a.id = pid
    · have hnone : rest.filter (fun r => decide (r.id = pid)) = [] := by
        rw [List.filter_eq_nil_iff]
        intro r hr
        simp only [decide_eq_true_eq]
        intro hreq
        exact hnd.1 (ha ▸ hreq ▸ List.mem_map_of_mem Player.id hr)
      simp [List.filter_cons, ha, hnone]
    · simpa [List.filter_cons, ha] using ih hnd.2

/- ## C1: view masking -/

/-- C1: `public_state` returns a state where every player's role is `none` and
the lady history is empty; `private_state_for p` returns that masked state with
exactly one role restored, namely player `p`'s own. -/
theorem c1_view_masking (st : GameState) (pid : String) (p : Player)
    (hp : getPlayer? st pid = some p)
    (hnd : (st.players.map Player.id).Nodup) :
    (∀ q ∈ (public_state st).players, q.role = none) ∧
    (public_state st).lady_history = [] ∧
    ∃ pv, private_state_for st pid = Except.ok pv ∧
      (∀ q ∈ pv.state.players, q.role = if q.id = pid then p.role else none) ∧
      pv.state.lady_history = [] ∧
      (pv.state.players.filter (fun q => q.role.isSome)).length ≤ 1 := by
  refine ⟨?_, rfl, ?_⟩
  · intro q hq
    obtain ⟨r, _, rfl⟩ := List.mem_map.1 hq
    rfl
  · unfold private_state_for
    rw [hp]
    refine ⟨_, rfl, ?_, rfl, ?_⟩
    · intro q hq
      simp only [public_state, List.map_map] at hq
      obtain ⟨r, hr, rfl⟩ := List.mem_map.1 hq
      by_cases hid : r.id = pid
      · simp [hid]
      · simp [hid]
    · simp only [public_state, List.map_map]
      rw [← List.countP_eq_length_filter, List.countP_map]
      have hle : st.players.countP
          (fun r => ((fun q => q.role.isSome) ∘
            ((fun q => if q.id = pid then { q with role := p.role } else q) ∘
              (fun q => { q with role := none }))) r) ≤
          st.players.countP (fun r => decide (r.id = pid)) := by
        apply List.countP_mono_left
        intro r _ hr
        by_cases hid : r.id = pid
        · simpa using hid
        · simp [Function.comp, hid] at hr
      calc st.players.countP _ ≤ st.players.countP (fun r => decide (r.id = pid)) := hle
        _ = (st.players.filter (fun r => decide (r.id = pid))).length :=
            List.countP_eq_length_filter _ _
        _ ≤ 1 := filter_id_length_le_one st.players pid hnd

/-- C1 witness: concrete evaluation on the started five-player game for
player `p0`. -/
theorem c1_view_masking_witness :
    getPlayer? sStarted "p0" = some { id := "p0", name := "A", role := some Role.merlin } ∧
    (sStarted.players.map Player.id).Nodup ∧
    ((∀ q ∈ (public_state sStarted).players, q.role = none) ∧
      (public_state sStarted).lady_history = [] ∧
      ∃ pv, private_state_for sStarted "p0" = Except.ok pv ∧
        (∀ q ∈ pv.state.players, q.role =
          if q.id = "p0" then some Role.merlin else none) ∧
        pv.state.lady_history = [] ∧
        (pv.state.players.filter (fun q => q.role.isSome)).length ≤ 1) :=
  ⟨by decide, by decide,
    c1_view_masking sStarted "p0" { id := "p0", name := "A", role := some Role.merlin }
      (by decide) (by decide)⟩

/- ## C2: errors leave the state unchanged -/

/-- `start_game` raises only on an empty player list (the holder lookup);
with at least one player no error occurs at all. -/
theorem start_game_err_none (st : GameState) (shuffled : List Role)
    (hne : st.players ≠ []) : (start_game st shuffled).1 = none := by
  unfold start_game
  dsimp only
  split
  · rfl
  · split
    · split
      · rename_i hh
        have hmap : (assign_roles st.players shuffled).map Player.id =
            st.players.map Player.id := assign_roles_map_id _ _
        rw [List.head?_eq_none_iff] at hh
        rw [hh] at hmap
        exact absurd (List.map_eq_nil_iff.1 hmap.symm) hne
      · rfl
    · rfl

/-- C2: every operation (create, start, act with any action type) that raises
an error leaves the observable game state exactly as it was and appends no
event.  The start conjunct carries the one well-formedness hypothesis the
program guarantees (a non-empty player list, enforced by `create_game`):
without it Python's `players[0]` lookup in `start_game` raises after several
writes, the one mutate-then-raise path of the engine, which the faithful
`start_game` model exposes. -/
theorem c2_errors_leave_state_unchanged :
    (∀ (st : GameState) (pid action_type : String) (payload : Payload),
      (apply_action st pid action_type payload).err.isSome →
        (apply_action st pid action_type payload).state = st ∧
        (apply_action st pid action_type payload).events = []) ∧
    (∀ (cur : Option GameState) (gid : String) (req : CreateGameRequest),
      (engine_create cur gid req).1.isSome → (engine_create cur gid req).2 = cur) ∧
    (∀ (cur : Option GameState) (shuffled : List Role),
      (∀ st, cur = some st → st.players ≠ []) →
      (engine_start cur shuffled).1.isSome → (engine_start cur shuffled).2 = cur) := by
  refine ⟨apply_action_err_state, ?_, ?_⟩
  · intro cur gid req
    unfold engine_create
    split <;> simp
  · intro cur shuffled hne
    cases cur with
    | none => intro _; rfl
    | some st =>
      unfold engine_start
      rw [start_game_err_none st shuffled (hne st rfl)]
      intro h
      cases h

/-- C2 witness: a chat action by an unknown player fails and leaves the
started five-player game untouched, and starting with no game raises while
the (absent) state stays absent. -/
theorem c2_errors_leave_state_unchanged_witness :
    ((apply_action sStarted "nobody" "chat" emptyPayload).err.isSome = true ∧
     (apply_action sStarted "nobody" "chat" emptyPayload).state = sStarted ∧
     (apply_action sStarted "nobody" "chat" emptyPayload).events = []) ∧
    ((engine_start none rolesFive).1.isSome = true ∧
     (engine_start none rolesFive).2 = none) :=
  ⟨⟨by decide,
    c2_errors_leave_state_unchanged.1 sStarted "nobody" "chat" emptyPayload (by decide)⟩,
   ⟨by decide,
    c2_errors_leave_state_unchanged.2.2 none rolesFive
      (fun st h => Option.noConfusion h) (by decide)⟩⟩

/- ## C7: sabotage threshold -/

theorem requires_two_fails_iff (c q : Nat) :
    requires_two_fails c q = true ↔ (7 ≤ c ∧ q = 4) := by
  unfold requires_two_fails
  simp

/-- C7: `requires_two_fails` holds exactly for player counts at least 7 in
round 4, and a resolved quest fails exactly when its sabotage count meets the
resulting threshold (2 there, 1 everywhere else). -/
theorem c7_fail_threshold :
    (∀ c q, requires_two_fails c q = true ↔ (7 ≤ c ∧ q = 4)) ∧
    (∀ (st : GameState) (pid : String) (payload : Payload) (pl : Player) (b : Bool),
      getPlayer? st pid = some pl →
      st.started = true →
      st.phase = Phase.quest →
      pl.id ∈ st.proposed_team →
      payload.success = some (PVal.b b) →
      (roleIsLoyal pl.role && !b) = false →
      ¬ (dictInsert st.quest_votes pl.id b).length < st.proposed_team.length →
      ∃ rec : QuestRecord,
        (apply_action st pid "quest_vote" payload).state.quest_history =
          st.quest_history ++ [rec] ∧
        rec.fails = ((dictInsert st.quest_votes pl.id b).filter (fun kv => !kv.2)).length ∧
        (rec.succeeded = false ↔
          (if 7 ≤ st.config.player_count ∧ st.quest_number = 4 then 2 else 1) ≤ rec.fails)) := by
  constructor
  · exact requires_two_fails_iff
  · intro st pid payload pl b hpl hst hph hmem hpay hloyal hfull
    rw [(apply_action_dispatch payload hpl hst).2.2.1,
      handle_quest_vote_resolves st pl payload b hph hmem hpay hloyal hfull]
    unfold quest_resolution
    refine ⟨⟨st.quest_number, st.proposed_team,
      ((dictInsert st.quest_votes pl.id b).filter (fun kv => !kv.2)).length,
      decide ((((dictInsert st.quest_votes pl.id b).filter (fun kv => !kv.2)).length) <
        if requires_two_fails st.config.player_count st.quest_number then 2 else 1)⟩,
      ?_, rfl, ?_⟩
    · repeat' split
      all_goals try simp
      all_goals try (repeat' split)
      all_goals try simp
      all_goals try (repeat' split)
      all_goals try simp
    · have hneed : (if requires_two_fails st.config.player_count st.quest_number = true
          then (2 : Nat) else 1) =
          if 7 ≤ st.config.player_count ∧ st.quest_number = 4 then 2 else 1 := by
        by_cases h : 7 ≤ st.config.player_count ∧ st.quest_number = 4
        · rw [if_pos h, if_pos ((requires_two_fails_iff st.config.player_count st.quest_number).2 h)]
        · rw [if_neg h, if_neg (fun hr => h ((requires_two_fails_iff st.config.player_count st.quest_number).1 hr))]
      simp [hneed]
      try omega

/-- C7 witness: the resolving quest vote in `sQuest3`. -/
theorem c7_fail_threshold_witness :
    (requires_two_fails 7 4 = true ↔ (7 ≤ 7 ∧ 4 = 4)) ∧
    (∃ rec : QuestRecord,
      (apply_action sQuest3 "p1" "quest_vote" successPayload).state.quest_history =
        sQuest3.quest_history ++ [rec] ∧
      rec.fails =
        ((dictInsert sQuest3.quest_votes "p1" true).filter (fun kv => !kv.2)).length ∧
      (rec.succeeded = false ↔
        (if 7 ≤ sQuest3.config.player_count ∧ sQuest3.quest_number = 4 then 2 else 1) ≤
          rec.fails)) :=
  ⟨c7_fail_threshold.1 7 4,
    c7_fail_threshold.2 sQuest3 "p1" successPayload
      { id := "p1", name := "B", role := some Role.percival } true
      (by decide) (by decide) (by decide) (by decide) (by decide) (by decide) (by decide)⟩

/- ## C10: assassination -/

/-- C10: in the assassination phase the assassin may target any known player,
the assassin included; the target is recorded, evil wins exactly when the
target holds Merlin, loyal wins otherwise, and the game always ends. -/
theorem c10_assassinate (st : GameState) (pid tid : String) (payload : Payload)
    (pl target : Player)
    (hpl : getPlayer? st pid = some pl)
    (hst : st.started = true)
    (hph : st.phase = Phase.assassination)
    (hrole : pl.role = some Role.assassin)
    (hpay : payload.target_id = some (PVal.s tid))
    (htne : tid ≠ "")
    (htgt : getPlayer? st tid = some target) :
    (apply_action st pid "assassinate" payload).err = none ∧
    (apply_action st pid "assassinate" payload).state.assassin_target = some tid ∧
    (apply_action st pid "assassinate" payload).state.winner =
      some (if target.role = some Role.merlin then Alignment.evil else Alignment.loyal) ∧
    (apply_action st pid "assassinate" payload).state.phase = Phase.game_over := by
  rw [(apply_action_dispatch payload hpl hst).2.2.2.2]
  unfold handle_assassinate
  rw [hpay]
  have hhas := hasPlayer_of_getPlayer? htgt
  simp [hph, hrole, htne, hhas, htgt]

/-- C10 witness: the assassin `p3` targets their own id; the game ends with a
loyal win. -/
theorem c10_assassinate_witness :
    (apply_action sAssassination "p3" "assassinate" selfTargetPayload).err = none ∧
    (apply_action sAssassination "p3" "assassinate" selfTargetPayload).state.assassin_target =
      some "p3" ∧
    (apply_action sAssassination "p3" "assassinate" selfTargetPayload).state.winner =
      some (if (some Role.assassin : Option Role) = some Role.merlin then Alignment.evil
        else Alignment.loyal) ∧
    (apply_action sAssassination "p3" "assassinate" selfTargetPayload).state.phase =
      Phase.game_over :=
  c10_assassinate sAssassination "p3" "p3" selfTargetPayload
    { id := "p3", name := "D", role := some Role.assassin }
    { id := "p3", name := "D", role := some Role.assassin }
    (by decide) (by decide) (by decide) (by decide) (by decide) (by decide) (by decide)

/- ## C3: lady_peek bookkeeping -/

/-- C3 counterexample: in `sLady` the current round number is 3, yet the
successful `lady_peek` records round 2 — not 3 — as the last-used round. -/
theorem c3_lady_peek_counterexample :
    sLady.quest_number = 3 ∧
    (apply_action sLady "p0" "lady_peek" ladyPayload).err = none ∧
    (apply_action sLady "p0" "lady_peek" ladyPayload).state.lady_last_used_quest = some 2 ∧
    (apply_action sLady "p0" "lady_peek" ladyPayload).state.lady_last_used_quest ≠
      some sLady.quest_number := by
  refine ⟨rfl, ?_, ?_, ?_⟩ <;> decide

/-- C3 (amended): a successful `lady_peek` in a lady-phase state with current
round number `r` records `r - 1` as the last-used round, transfers holder
status to the target and returns the phase to `team_proposal`. -/
theorem c3_lady_peek_amended (st : GameState) (pid tid : String) (payload : Payload)
    (pl : Player)
    (hpl : getPlayer? st pid = some pl)
    (hst : st.started = true)
    (hph : st.phase = Phase.lady_of_lake)
    (hcfg : st.config.lady_of_lake = true)
    (hhold : st.lady_holder_id = some pid)
    (hpay : payload.target_id = some (PVal.s tid))
    (htne : tid ≠ "")
    (hhas : hasPlayer st tid = true)
    (hself : tid ≠ pid) :
    (apply_action st pid "lady_peek" payload).err = none ∧
    (apply_action st pid "lady_peek" payload).state.lady_last_used_quest =
      some ((st.quest_number : Int) - 1) ∧
    (apply_action st pid "lady_peek" payload).state.lady_holder_id = some tid ∧
    (apply_action st pid "lady_peek" payload).state.phase = Phase.team_proposal := by
  rw [(apply_action_dispatch payload hpl hst).2.2.2.1]
  unfold handle_lady
  rw [hpay]
  have hid : pl.id = pid := getPlayer?_id hpl
  obtain ⟨target, htgt⟩ : ∃ t, getPlayer? st tid = some t := by
    unfold hasPlayer at hhas
    obtain ⟨p, hp, hpe⟩ := List.any_eq_true.1 hhas
    unfold getPlayer?
    rcases ho : st.players.find? (fun q => decide (q.id = tid)) with _ | t
    · exact absurd (List.find?_eq_none.1 ho p hp) (by simp [hpe])
    · exact ⟨t, ho⟩
  simp [hph, hcfg, hid, hhold, htne, hhas, hself, htgt]

/-- C3 witness: the holder `p0` peeks at `p1` in `sLady`. -/
theorem c3_lady_peek_amended_witness :
    (apply_action sLady "p0" "lady_peek" ladyPayload).err = none ∧
    (apply_action sLady "p0" "lady_peek" ladyPayload).state.lady_last_used_quest =
      some ((sLady.quest_number : Int) - 1) ∧
    (apply_action sLady "p0" "lady_peek" ladyPayload).state.lady_holder_id = some "p1" ∧
    (apply_action sLady "p0" "lady_peek" ladyPayload).state.phase = Phase.team_proposal :=
  c3_lady_peek_amended sLady "p0" "p1" ladyPayload
    { id := "p0", name := "A", role := some Role.merlin }
    (by decide) (by decide) (by decide) (by decide) (by decide) (by decide) (by decide)
    (by decide) (by decide)

/- ## C4 and C5: quest-resolution outcome analysis -/

/-- In a quest resolution whose updated counters stay below 3, the round is
incremented and the next phase is chosen by the literal lady-of-the-lake
condition. -/
theorem quest_resolution_nonterminal (st1 : GameState) (ev1 : Event) :
    (quest_resolution st1 ev1).state.success_count < 3 →
    (quest_resolution st1 ev1).state.fail_count < 3 →
    (quest_resolution st1 ev1).state.quest_number = st1.quest_number + 1 ∧
    ((quest_resolution st1 ev1).state.phase = Phase.lady_of_lake ↔
      (st1.config.lady_of_lake = true ∧ 3 ≤ st1.quest_number + 1 ∧
        st1.lady_last_used_quest ≠ some st1.quest_number)) ∧
    ((quest_resolution st1 ev1).state.phase = Phase.lady_of_lake ∨
      (quest_resolution st1 ev1).state.phase = Phase.team_proposal) := by
  rcases hq : quest_resolution st1 ev1 with ⟨err1, stR, evs⟩
  unfold quest_resolution at hq
  repeat' (first | (split at hq) | (simp only [decide_eq_true_eq] at hq))
  all_goals (cases hq)
  all_goals simp_all
  all_goals try omega

/-- In a quest resolution whose updated success counter reaches 3 the game
moves to assassination exactly when a Merlin-holding player exists, otherwise
it ends with a loyal win; whenever instead the updated fail counter reaches 3
the game ends with an evil win. -/
theorem quest_resolution_terminal (st1 : GameState) (ev1 : Event) :
    (3 ≤ (quest_resolution st1 ev1).state.success_count →
      (if st1.players.any (fun p => decide (p.role = some Role.merlin)) then
        (quest_resolution st1 ev1).state.phase = Phase.assassination
      else
        (quest_resolution st1 ev1).state.phase = Phase.game_over ∧
        (quest_resolution st1 ev1).state.winner = some Alignment.loyal)) ∧
    ((quest_resolution st1 ev1).state.success_count < 3 →
      3 ≤ (quest_resolution st1 ev1).state.fail_count →
      (quest_resolution st1 ev1).state.phase = Phase.game_over ∧
      (quest_resolution st1 ev1).state.winner = some Alignment.evil) := by
  rcases hq : quest_resolution st1 ev1 with ⟨err1, stR, evs⟩
  unfold quest_resolution at hq
  repeat' (first | (split at hq) | (simp only [decide_eq_true_eq] at hq))
  all_goals (cases hq)
  all_goals simp_all
  all_goals try omega

/-- C4: for every quest resolution that does not end the game, with `r` the
incremented round number, the next phase is `lady_of_lake` iff the ability is
enabled, `r ≥ 3` and the recorded last-used round is not `r - 1`; otherwise it
is `team_proposal`. -/
theorem c4_next_phase (st : GameState) (pid : String) (payload : Payload) (pl : Player)
    (b : Bool)
    (hpl : getPlayer? st pid = some pl)
    (hst : st.started = true)
    (hph : st.phase = Phase.quest)
    (hmem : pl.id ∈ st.proposed_team)
    (hpay : payload.success = some (PVal.b b))
    (hloyal : (roleIsLoyal pl.role && !b) = false)
    (hfull : ¬ (dictInsert st.quest_votes pl.id b).length < st.proposed_team.length)
    (hsucc : (apply_action st pid "quest_vote" payload).state.success_count < 3)
    (hfail : (apply_action st pid "quest_vote" payload).state.fail_count < 3) :
    (apply_action st pid "quest_vote" payload).state.quest_number = st.quest_number + 1 ∧
    ((apply_action st pid "quest_vote" payload).state.phase = Phase.lady_of_lake ↔
      (st.config.lady_of_lake = true ∧ 3 ≤ st.quest_number + 1 ∧
        st.lady_last_used_quest ≠ some st.quest_number)) ∧
    ((apply_action st pid "quest_vote" payload).state.phase = Phase.lady_of_lake ∨
      (apply_action st pid "quest_vote" payload).state.phase = Phase.team_proposal) := by
  rw [(apply_action_dispatch payload hpl hst).2.2.1,
    handle_quest_vote_resolves st pl payload b hph hmem hpay hloyal hfull] at hsucc hfail ⊢
  have h := quest_resolution_nonterminal _ _ hsucc hfail
  simpa using h

/-- C4 witness: the resolving quest vote in `sQuest2` leads to the
`lady_of_lake` phase of round 3. -/
theorem c4_next_phase_witness :
    (apply_action sQuest2 "p4" "quest_vote" successPayload).state.quest_number =
      sQuest2.quest_number + 1 ∧
    ((apply_action sQuest2 "p4" "quest_vote" successPayload).state.phase =
        Phase.lady_of_lake ↔
      (sQuest2.config.lady_of_lake = true ∧ 3 ≤ sQuest2.quest_number + 1 ∧
        sQuest2.lady_last_used_quest ≠ some sQuest2.quest_number)) ∧
    ((apply_action sQuest2 "p4" "quest_vote" successPayload).state.phase =
        Phase.lady_of_lake ∨
      (apply_action sQuest2 "p4" "quest_vote" successPayload).state.phase =
        Phase.team_proposal) :=
  c4_next_phase sQuest2 "p4" successPayload
    { id := "p4", name := "E", role := some Role.minion } true
    (by decide) (by decide) (by decide) (by decide) (by decide) (by decide) (by decide)
    (by decide) (by decide)

/-- C5 counterexample: a state whose players include the Assassin but no
Merlin; the third quest success ends the game with a loyal win instead of
entering the assassination phase. -/
theorem c5_game_end_counterexample :
    (∃ p ∈ sNoMerlin.players, p.role = some Role.assassin) ∧
    (apply_action sNoMerlin "p1" "quest_vote" successPayload).err = none ∧
    (apply_action sNoMerlin "p1" "quest_vote" successPayload).state.success_count = 3 ∧
    (apply_action sNoMerlin "p1" "quest_vote" successPayload).state.phase ≠
      Phase.assassination ∧
    (apply_action sNoMerlin "p1" "quest_vote" successPayload).state.phase =
      Phase.game_over ∧
    (apply_action sNoMerlin "p1" "quest_vote" successPayload).state.winner =
      some Alignment.loyal := by
  decide

/-- C5 (amended): when the updated success count reaches 3, the game moves to
assassination exactly when some player holds Merlin and otherwise ends with a
loyal win; when instead (success count still below 3) the updated fail count
reaches 3, the game ends immediately with an evil win. -/
theorem c5_game_end_amended (st : GameState) (pid : String) (payload : Payload)
    (pl : Player) (b : Bool)
    (hpl : getPlayer? st pid = some pl)
    (hst : st.started = true)
    (hph : st.phase = Phase.quest)
    (hmem : pl.id ∈ st.proposed_team)
    (hpay : payload.success = some (PVal.b b))
    (hloyal : (roleIsLoyal pl.role && !b) = false)
    (hfull : ¬ (dictInsert st.quest_votes pl.id b).length < st.proposed_team.length) :
    (3 ≤ (apply_action st pid "quest_vote" payload).state.success_count →
      (if st.players.any (fun p => decide (p.role = some Role.merlin)) then
        (apply_action st pid "quest_vote" payload).state.phase = Phase.assassination
      else
        (apply_action st pid "quest_vote" payload).state.phase = Phase.game_over ∧
        (apply_action st pid "quest_vote" payload).state.winner =
          some Alignment.loyal)) ∧
    ((apply_action st pid "quest_vote" payload).state.success_count < 3 →
      3 ≤ (apply_action st pid "quest_vote" payload).state.fail_count →
      (apply_action st pid "quest_vote" payload).state.phase = Phase.game_over ∧
      (apply_action st pid "quest_vote" payload).state.winner = some Alignment.evil) := by
  rw [(apply_action_dispatch payload hpl hst).2.2.1,
    handle_quest_vote_resolves st pl payload b hph hmem hpay hloyal hfull]
  have h := quest_resolution_terminal
    { st with quest_votes := dictInsert st.quest_votes pl.id b }
    { type := "quest_vote"
      payload := [("player_id", PVal.s pl.id), ("success", PVal.b b)] }
  simpa using h

/-- C5 witness: the resolving quest vote in `sQuest3` reaches three successes
and enters the assassination phase (Merlin is among the players). -/
theorem c5_game_end_amended_witness :
    (3 ≤ (apply_action sQuest3 "p1" "quest_vote" successPayload).state.success_count →
      (if sQuest3.players.any (fun p => decide (p.role = some Role.merlin)) then
        (apply_action sQuest3 "p1" "quest_vote" successPayload).state.phase =
          Phase.assassination
      else
        (apply_action sQuest3 "p1" "quest_vote" successPayload).state.phase =
          Phase.game_over ∧
        (apply_action sQuest3 "p1" "quest_vote" successPayload).state.winner =
          some Alignment.loyal)) ∧
    ((apply_action sQuest3 "p1" "quest_vote" successPayload).state.success_count < 3 →
      3 ≤ (apply_action sQuest3 "p1" "quest_vote" successPayload).state.fail_count →
      (apply_action sQuest3 "p1" "quest_vote" successPayload).state.phase =
        Phase.game_over ∧
      (apply_action sQuest3 "p1" "quest_vote" successPayload).state.winner =
        some Alignment.evil) :=
  c5_game_end_amended sQuest3 "p1" successPayload
    { id := "p1", name := "B", role := some Role.percival } true
    (by decide) (by decide) (by decide) (by decide) (by decide) (by decide) (by decide)

/- ## C6: team-vote tally -/

/-- `team_vote_resolution` written as a single conditional. -/
theorem team_vote_resolution_eq (st1 : GameState) (ev1 : Event) :
    team_vote_resolution st1 ev1 =
      (let approvals := (st1.team_votes.filter (fun kv => kv.2)).length
       let rejects := st1.players.length - approvals
       if rejects < approvals then
        { err := none
          state := { st1 with phase := Phase.quest, proposal_attempts := 0 }
          events := [ev1,
            { type := "team_approved"
              payload := [("approvals", PVal.n approvals), ("rejects", PVal.n rejects)] }] }
       else
        { err := none
          state := { st1 with
            proposal_attempts := st1.proposal_attempts + 1
            proposed_team := []
            team_votes := []
            phase := Phase.team_proposal
            leader_index := (st1.leader_index + 1) % st1.players.length }
          events := [ev1,
            { type := "team_rejected"
              payload := [("approvals", PVal.n approvals), ("rejects", PVal.n rejects)] }] }) :=
  rfl

/-- C6: once every player has voted, the proposal is approved (phase `quest`,
rejection counter reset) iff approvals outnumber rejections — a tie rejects —
and a rejection bumps the counter, clears the proposal and votes, advances the
leader cyclically and returns to `team_proposal`. -/
theorem c6_team_vote_tally (st : GameState) (pid : String) (payload : Payload)
    (pl : Player) (b : Bool)
    (hpl : getPlayer? st pid = some pl)
    (hst : st.started = true)
    (hph : st.phase = Phase.team_vote)
    (hpay : payload.approve = some (PVal.b b))
    (hndIds : (st.players.map Player.id).Nodup)
    (hndKeys : (dictKeys st.team_votes).Nodup)
    (hsub : ∀ k ∈ dictKeys st.team_votes, k ∈ st.players.map Player.id)
    (hEvery : ∀ q ∈ st.players, q.id ∈ dictKeys (dictInsert st.team_votes pl.id b)) :
    (apply_action st pid "vote_team" payload).err = none ∧
    (((dictInsert st.team_votes pl.id b).filter (fun kv => !kv.2)).length <
        ((dictInsert st.team_votes pl.id b).filter (fun kv => kv.2)).length →
      (apply_action st pid "vote_team" payload).state =
        { st with team_votes := dictInsert st.team_votes pl.id b
                  phase := Phase.quest
                  proposal_attempts := 0 }) ∧
    (((dictInsert st.team_votes pl.id b).filter (fun kv => kv.2)).length ≤
        ((dictInsert st.team_votes pl.id b).filter (fun kv => !kv.2)).length →
      (apply_action st pid "vote_team" payload).state =
        { st with
          proposal_attempts := st.proposal_attempts + 1
          proposed_team := []
          team_votes := []
          phase := Phase.team_proposal
          leader_index := (st.leader_index + 1) % st.players.length }) := by
  have hkn : (dictKeys (dictInsert st.team_votes pl.id b)).Nodup :=
    dictKeys_nodup_dictInsert _ _ hndKeys
  have hks : ∀ k ∈ dictKeys (dictInsert st.team_votes pl.id b),
      k ∈ st.players.map Player.id := by
    intro k hk
    rcases (mem_dictKeys_dictInsert _ _ _ _).1 hk with h | h
    · exact hsub k h
    · subst h
      exact List.mem_map_of_mem Player.id (getPlayer?_mem hpl)
  have hlen : (dictInsert st.team_votes pl.id b).length = st.players.length := by
    have h1 : (dictKeys (dictInsert st.team_votes pl.id b)).length ≤
        (st.players.map Player.id).length :=
      (List.subperm_of_subset hkn hks).length_le
    have h2 : (st.players.map Player.id).length ≤
        (dictKeys (dictInsert st.team_votes pl.id b)).length := by
      refine (List.subperm_of_subset hndIds ?_).length_le
      intro x hx
      obtain ⟨q, hq, rfl⟩ := List.mem_map.1 hx
      exact hEvery q hq
    have h3 := dictKeys_length (dictInsert st.team_votes pl.id b)
    have h4 : (st.players.map Player.id).length = st.players.length := List.length_map _ _
    omega
  have hfull : ¬ (dictInsert st.team_votes pl.id b).length < st.players.length := by omega
  have hpart : ((dictInsert st.team_votes pl.id b).filter (fun kv => kv.2)).length +
      ((dictInsert st.team_votes pl.id b).filter (fun kv => !kv.2)).length =
      (dictInsert st.team_votes pl.id b).length := by
    simpa using length_filter_partition (dictInsert st.team_votes pl.id b) (fun kv => kv.2)
  rw [(apply_action_dispatch payload hpl hst).2.1,
    handle_vote_resolves st pl payload b hph hpay hfull, team_vote_resolution_eq]
  dsimp only
  refine ⟨?_, ?_, ?_⟩
  · split <;> rfl
  · intro hmaj
    rw [if_pos (by omega)]
  · intro hle
    rw [if_neg (by omega)]

/-- C6 witness: the fifth approval in `sVoteAlmost` resolves the vote 5-0 and
advances to the quest phase. -/
theorem c6_team_vote_tally_witness :
    (apply_action sVoteAlmost "p4" "vote_team" approvePayload).err = none ∧
    (((dictInsert sVoteAlmost.team_votes "p4" true).filter (fun kv => !kv.2)).length <
        ((dictInsert sVoteAlmost.team_votes "p4" true).filter (fun kv => kv.2)).length →
      (apply_action sVoteAlmost "p4" "vote_team" approvePayload).state =
        { sVoteAlmost with
          team_votes := dictInsert sVoteAlmost.team_votes "p4" true
          phase := Phase.quest
          proposal_attempts := 0 }) ∧
    (((dictInsert sVoteAlmost.team_votes "p4" true).filter (fun kv => kv.2)).length ≤
        ((dictInsert sVoteAlmost.team_votes "p4" true).filter (fun kv => !kv.2)).length →
      (apply_action sVoteAlmost "p4" "vote_team" approvePayload).state =
        { sVoteAlmost with
          proposal_attempts := sVoteAlmost.proposal_attempts + 1
          proposed_team := []
          team_votes := []
          phase := Phase.team_proposal
          leader_index := (sVoteAlmost.leader_index + 1) % sVoteAlmost.players.length }) :=
  c6_team_vote_tally sVoteAlmost "p4" approvePayload
    { id := "p4", name := "E", role := some Role.minion } true
    (by decide) (by decide) (by decide) (by decide) (by decide) (by decide) (by decide)
    (by decide)

/- ## C8: events appended by successful calls -/

theorem handle_propose_events (st : GameState) (pl : Player) (payload : Payload) :
    (handle_propose st pl payload).err = none →
    (handle_propose st pl payload).events.length =
      if st.config.hammer_auto_approve = true ∧ 4 ≤ st.proposal_attempts then 2 else 1 := by
  unfold handle_propose
  repeat' split
  all_goals try simp_all [failWith]
  all_goals try (repeat' split)
  all_goals try simp_all [failWith]
  all_goals omega

theorem handle_vote_events (st : GameState) (pl : Player) (payload : Payload) (b : Bool)
    (hpay : payload.approve = some (PVal.b b)) :
    (handle_vote st pl payload).err = none →
    (handle_vote st pl payload).events.length =
      if (dictInsert st.team_votes pl.id b).length < st.players.length then 1 else 2 := by
  unfold handle_vote team_vote_resolution
  rw [hpay]
  repeat' split
  all_goals try simp_all [failWith]
  all_goals try (repeat' split)
  all_goals try simp_all [failWith]
  all_goals omega

theorem handle_vote_badpay (st : GameState) (pl : Player) (payload : Payload)
    (hpay : ∀ b, payload.approve ≠ some (PVal.b b)) :
    (handle_vote st pl payload).err.isSome := by
  unfold handle_vote
  repeat' split
  all_goals simp_all [failWith]

theorem handle_quest_vote_events (st : GameState) (pl : Player) (payload : Payload)
    (b : Bool) (hpay : payload.success = some (PVal.b b)) :
    (handle_quest_vote st pl payload).err = none →
    (handle_quest_vote st pl payload).events.length =
      if (dictInsert st.quest_votes pl.id b).length < st.proposed_team.length then 1 else 2 := by
  unfold handle_quest_vote quest_resolution
  rw [hpay]
  repeat' (first | split | (simp only [decide_eq_true_eq]))
  all_goals try simp_all [failWith]
  all_goals try (repeat' (first | split | (simp only [decide_eq_true_eq])))
  all_goals try simp_all [failWith]
  all_goals omega

theorem handle_quest_vote_badpay (st : GameState) (pl : Player) (payload : Payload)
    (hpay : ∀ b, payload.success ≠ some (PVal.b b)) :
    (handle_quest_vote st pl payload).err.isSome := by
  unfold handle_quest_vote
  repeat' split
  all_goals simp_all [failWith]

theorem handle_lady_events (st : GameState) (pl : Player) (payload : Payload) :
    (handle_lady st pl payload).err = none →
    (handle_lady st pl payload).events.length = 1 := by
  unfold handle_lady
  repeat' split
  all_goals simp_all [failWith]

theorem handle_assassinate_events (st : GameState) (pl : Player) (payload : Payload) :
    (handle_assassinate st pl payload).err = none →
    (handle_assassinate st pl payload).events.length = 1 := by
  unfold handle_assassinate
  repeat' split
  all_goals simp_all [failWith]

/-- C8 counterexample: the resolving team vote in `sVoteAlmost` is one
successful mutating call that appends two events, not one. -/
theorem c8_one_event_counterexample :
    (apply_action sVoteAlmost "p4" "vote_team" approvePayload).err = none ∧
    (apply_action sVoteAlmost "p4" "vote_team" approvePayload).events.length = 2 := by
  decide

/-- C8 (amended): every successful mutating call appends exactly one event,
except that the hammer branch of `propose_team` and the tally-resolving
branches of `vote_team` and `quest_vote` append a second resolution event
(two in total), as recorded by `eventCountSpec`. -/
theorem c8_event_count_amended (st : GameState) (pid action_type : String)
    (payload : Payload) :
    (apply_action st pid action_type payload).err = none →
    (apply_action st pid action_type payload).events.length =
      eventCountSpec st pid action_type payload := by
  intro h
  rcases hg : getPlayer? st pid with _ | pl
  · simp [apply_action, hg, failWith] at h
  · have hid : pl.id = pid := getPlayer?_id hg
    by_cases hchat : action_type = "chat"
    · subst hchat
      unfold apply_action at h ⊢
      rw [hg] at h ⊢
      simp only [if_pos rfl] at h ⊢
      unfold eventCountSpec
      rcases pm : payload.message.getD (PVal.s "") with msg | b2 | n2 | l2
      · rw [pm] at h
        by_cases hm : msg = ""
        · simp [hm, failWith] at h
        · simp [hm, failWith]
      · rw [pm] at h
        simp [failWith] at h
      · rw [pm] at h
        simp [failWith] at h
      · rw [pm] at h
        simp [failWith] at h
    · by_cases hstf : st.started = false
      · simp [apply_action, hg, hchat, hstf, failWith] at h
      · have hstt : st.started = true := by
          revert hstf
          cases st.started <;> simp
        by_cases hpro : action_type = "propose_team"
        · subst hpro
          rw [(apply_action_dispatch payload hg hstt).1] at h ⊢
          have hspec : eventCountSpec st pid "propose_team" payload =
              if st.config.hammer_auto_approve = true ∧ 4 ≤ st.proposal_attempts then 2
              else 1 := by
            unfold eventCountSpec
            simp
          rw [hspec]
          exact handle_propose_events st pl payload h
        · by_cases hvote : action_type = "vote_team"
          · subst hvote
            rw [(apply_action_dispatch payload hg hstt).2.1] at h ⊢
            rcases pa : payload.approve with _ | pv
            · have hbad := handle_vote_badpay st pl payload (by simp [pa])
              rw [h] at hbad
              simp at hbad
            · rcases pv with v1 | b2 | n1 | l1
              · have hbad := handle_vote_badpay st pl payload (by simp [pa])
                rw [h] at hbad
                simp at hbad
              · have hspec : eventCountSpec st pid "vote_team" payload =
                    if (dictInsert st.team_votes pid b2).length < st.players.length then 1
                    else 2 := by
                  unfold eventCountSpec
                  simp [pa]
                rw [hspec, ← hid]
                exact handle_vote_events st pl payload b2 pa h
              · have hbad := handle_vote_badpay st pl payload (by simp [pa])
                rw [h] at hbad
                simp at hbad
              · have hbad := handle_vote_badpay st pl payload (by simp [pa])
                rw [h] at hbad
                simp at hbad
          · by_cases hq : action_type = "quest_vote"
            · subst hq
              rw [(apply_action_dispatch payload hg hstt).2.2.1] at h ⊢
              rcases pa : payload.success with _ | pv
              · have hbad := handle_quest_vote_badpay st pl payload (by simp [pa])
                rw [h] at hbad
                simp at hbad
              · rcases pv with v1 | b2 | n1 | l1
                · have hbad := handle_quest_vote_badpay st pl payload (by simp [pa])
                  rw [h] at hbad
                  simp at hbad
                · have hspec : eventCountSpec st pid "quest_vote" payload =
                      if (dictInsert st.quest_votes pid b2).length <
                          st.proposed_team.length then 1
                      else 2 := by
                    unfold eventCountSpec
                    simp [pa]
                  rw [hspec, ← hid]
                  exact handle_quest_vote_events st pl payload b2 pa h
                · have hbad := handle_quest_vote_badpay st pl payload (by simp [pa])
                  rw [h] at hbad
                  simp at hbad
                · have hbad := handle_quest_vote_badpay st pl payload (by simp [pa])
                  rw [h] at hbad
                  simp at hbad
            · by_cases hl : action_type = "lady_peek"
              · subst hl
                rw [(apply_action_dispatch payload hg hstt).2.2.2.1] at h ⊢
                have hspec : eventCountSpec st pid "lady_peek" payload = 1 := by
                  unfold eventCountSpec
                  simp
                rw [hspec]
                exact handle_lady_events st pl payload h
              · by_cases ha : action_type = "assassinate"
                · subst ha
                  rw [(apply_action_dispatch payload hg hstt).2.2.2.2] at h ⊢
                  have hspec : eventCountSpec st pid "assassinate" payload = 1 := by
                    unfold eventCountSpec
                    simp
                  rw [hspec]
                  exact handle_assassinate_events st pl payload h
                · simp [apply_action, hg, hchat, hstt, hpro, hvote, hq, hl, ha,
                    failWith] at h

/-- C8 witness: a chat message by `p0` appends exactly one event. -/
theorem c8_event_count_amended_witness :
    (apply_action sStarted "p0" "chat" { message := some (PVal.s "hello") }).err = none ∧
    (apply_action sStarted "p0" "chat" { message := some (PVal.s "hello") }).events.length =
      eventCountSpec sStarted "p0" "chat" { message := some (PVal.s "hello") } :=
  ⟨by decide,
    c8_event_count_amended sStarted "p0" "chat" { message := some (PVal.s "hello") }
      (by decide)⟩

/- ## C9: vote-key invariants over reachable states -/

theorem inv_handle_propose (st : GameState) (pl : Player) (payload : Payload)
    (hinv : VoteKeysInv st) (hst : st.started = true) :
    VoteKeysInv ((handle_propose st pl payload).state) := by
  obtain ⟨h1, h2, h3, h4⟩ := hinv
  unfold handle_propose
  dsimp only
  repeat' split
  all_goals try exact ⟨h1, h2, h3, h4⟩
  all_goals (
    have hqv : st.quest_votes = [] := by
      apply h2
      intro hq
      simp_all
    exact ⟨by simp [dictKeys, hqv], fun _ => hqv, by simp [dictKeys],
      fun hc => by rw [hst] at hc; cases hc⟩)

theorem inv_handle_vote (st : GameState) (pl : Player) (payload : Payload)
    (hinv : VoteKeysInv st) (hst : st.started = true) (hpl : pl ∈ st.players) :
    VoteKeysInv ((handle_vote st pl payload).state) := by
  obtain ⟨h1, h2, h3, h4⟩ := hinv
  unfold handle_vote team_vote_resolution
  dsimp only
  repeat' split
  all_goals try exact ⟨h1, h2, h3, h4⟩
  all_goals (
    have hqv : st.quest_votes = [] := by
      apply h2
      intro hq
      simp_all
    refine ⟨?_, ?_, ?_, ?_⟩
    · simp [dictKeys, hqv]
    · intro _
      exact hqv
    · intro k hk
      first
        | (rcases (mem_dictKeys_dictInsert _ _ _ _).1 hk with h | h
           · exact h3 k h
           · subst h
             exact List.mem_map_of_mem Player.id hpl)
        | (simp [dictKeys] at hk)
    · intro hc
      rw [hst] at hc
      cases hc)

theorem quest_resolution_quest_votes (st1 : GameState) (ev1 : Event) :
    (quest_resolution st1 ev1).state.quest_votes = [] := by
  rcases hq : quest_resolution st1 ev1 with ⟨err1, stR, evs⟩
  unfold quest_resolution at hq
  repeat' (first | (split at hq) | (simp only [decide_eq_true_eq] at hq))
  all_goals (cases hq)
  all_goals simp_all

theorem quest_resolution_team_votes (st1 : GameState) (ev1 : Event) :
    (quest_resolution st1 ev1).state.team_votes = [] := by
  rcases hq : quest_resolution st1 ev1 with ⟨err1, stR, evs⟩
  unfold quest_resolution at hq
  repeat' (first | (split at hq) | (simp only [decide_eq_true_eq] at hq))
  all_goals (cases hq)
  all_goals simp_all

theorem quest_resolution_started (st1 : GameState) (ev1 : Event) :
    (quest_resolution st1 ev1).state.started = st1.started := by
  rcases hq : quest_resolution st1 ev1 with ⟨err1, stR, evs⟩
  unfold quest_resolution at hq
  repeat' (first | (split at hq) | (simp only [decide_eq_true_eq] at hq))
  all_goals (cases hq)
  all_goals simp_all

theorem inv_handle_quest_vote (st : GameState) (pl : Player) (payload : Payload)
    (hinv : VoteKeysInv st) (hst : st.started = true) :
    VoteKeysInv ((handle_quest_vote st pl payload).state) := by
  obtain ⟨h1, h2, h3, h4⟩ := hinv
  unfold handle_quest_vote
  dsimp only
  repeat' split
  all_goals try exact ⟨h1, h2, h3, h4⟩
  all_goals first
    | (exact ⟨by simp [dictKeys, quest_resolution_quest_votes],
        fun _ => quest_resolution_quest_votes _ _,
        by simp [dictKeys, quest_resolution_team_votes],
        fun hc => by rw [quest_resolution_started] at hc; simp_all⟩)
    | (refine ⟨?_, ?_, ?_, ?_⟩
       · intro k hk
         rcases (mem_dictKeys_dictInsert _ _ _ _).1 hk with h | h
         · exact h1 k h
         · subst h
           simp_all
       · intro hc
         simp_all
       · intro k hk
         exact h3 k hk
       · intro hc
         rw [hst] at hc
         cases hc)

theorem inv_handle_lady (st : GameState) (pl : Player) (payload : Payload)
    (hinv : VoteKeysInv st) (hst : st.started = true) :
    VoteKeysInv ((handle_lady st pl payload).state) := by
  obtain ⟨h1, h2, h3, h4⟩ := hinv
  unfold handle_lady
  try dsimp only
  repeat' split
  all_goals try exact ⟨h1, h2, h3, h4⟩
  all_goals (
    have hqv : st.quest_votes = [] := by
      apply h2
      intro hq
      simp_all
    exact ⟨by simp [dictKeys, hqv], fun _ => hqv, h3,
      fun hc => by rw [hst] at hc; cases hc⟩)

theorem inv_handle_assassinate (st : GameState) (pl : Player) (payload : Payload)
    (hinv : VoteKeysInv st) (hst : st.started = true) :
    VoteKeysInv ((handle_assassinate st pl payload).state) := by
  obtain ⟨h1, h2, h3, h4⟩ := hinv
  unfold handle_assassinate
  try dsimp only
  repeat' split
  all_goals try exact ⟨h1, h2, h3, h4⟩
  all_goals (
    have hqv : st.quest_votes = [] := by
      apply h2
      intro hq
      simp_all
    exact ⟨by simp [dictKeys, hqv], fun _ => hqv, h3,
      fun hc => by rw [hst] at hc; cases hc⟩)

theorem inv_apply_action (st : GameState) (pid a : String) (payload : Payload)
    (hinv : VoteKeysInv st) :
    VoteKeysInv ((apply_action st pid a payload).state) := by
  rcases hg : getPlayer? st pid with _ | pl
  · have hs : (apply_action st pid a payload).state = st := by
      unfold apply_action
      rw [hg]
      rfl
    rw [hs]
    exact hinv
  · have hplm : pl ∈ st.players := getPlayer?_mem hg
    by_cases hchat : a = "chat"
    · subst hchat
      have hshape : (apply_action st pid "chat" payload).state = st ∨
          ∃ msg, (apply_action st pid "chat" payload).state =
            { st with chat := st.chat ++ [{ player_id := pid, message := msg }] } := by
        unfold apply_action
        rw [hg]
        simp only [if_pos rfl]
        rcases payload.message.getD (PVal.s "") with msg | b2 | n2 | l2
        · by_cases hm : msg = ""
          · simp [hm, failWith]
          · right
            exact ⟨msg, by simp [hm]⟩
        all_goals simp [failWith]
      rcases hshape with h | ⟨msg, h⟩
      · rw [h]
        exact hinv
      · rw [h]
        obtain ⟨h1, h2, h3, h4⟩ := hinv
        exact ⟨h1, h2, h3, h4⟩
    · by_cases hstf : st.started = false
      · have hs : (apply_action st pid a payload).state = st := by
          unfold apply_action
          rw [hg]
          simp [hchat, hstf, failWith]
        rw [hs]
        exact hinv
      · have hstt : st.started = true := by
          revert hstf
          cases st.started <;> simp
        by_cases hpro : a = "propose_team"
        · subst hpro
          rw [(apply_action_dispatch payload hg hstt).1]
          exact inv_handle_propose st pl payload hinv hstt
        · by_cases hvote : a = "vote_team"
          · subst hvote
            rw [(apply_action_dispatch payload hg hstt).2.1]
            exact inv_handle_vote st pl payload hinv hstt hplm
          · by_cases hq : a = "quest_vote"
            · subst hq
              rw [(apply_action_dispatch payload hg hstt).2.2.1]
              exact inv_handle_quest_vote st pl payload hinv hstt
            · by_cases hl : a = "lady_peek"
              · subst hl
                rw [(apply_action_dispatch payload hg hstt).2.2.2.1]
                exact inv_handle_lady st pl payload hinv hstt
              · by_cases ha : a = "assassinate"
                · subst ha
                  rw [(apply_action_dispatch payload hg hstt).2.2.2.2]
                  exact inv_handle_assassinate st pl payload hinv hstt
                · have hs : (apply_action st pid a payload).state = st := by
                    unfold apply_action
                    rw [hg]
                    simp [hchat, hstt, hpro, hvote, hq, hl, ha, failWith]
                  rw [hs]
                  exact hinv

theorem inv_create (gid : String) (req : CreateGameRequest) (st : GameState)
    (h : create_game gid req = Except.ok st) : VoteKeysInv st := by
  unfold create_game at h
  dsimp only at h
  repeat' split at h
  all_goals try (cases h)
  all_goals exact ⟨by simp [dictKeys], fun _ => rfl, by simp [dictKeys], fun _ => rfl⟩

theorem inv_start (st : GameState) (shuffled : List Role) (hinv : VoteKeysInv st) :
    VoteKeysInv (start_game st shuffled).2 := by
  obtain ⟨h1, h2, h3, h4⟩ := hinv
  unfold start_game
  dsimp only
  split
  · exact ⟨h1, h2, h3, h4⟩
  · rename_i hns
    have hsf : st.started = false := by
      revert hns
      cases st.started <;> simp
    have hlob : st.phase = Phase.lobby := h4 hsf
    have hqv : st.quest_votes = [] := by
      apply h2
      rw [hlob]
      decide
    repeat' split
    all_goals (
      refine ⟨?_, ?_, ?_, ?_⟩
      · simp [dictKeys, hqv]
      · intro _
        exact hqv
      · intro k hk
        have hmem := h3 k hk
        show k ∈ (assign_roles st.players shuffled).map Player.id
        rw [assign_roles_map_id]
        exact hmem
      · intro hc
        cases hc)

theorem reachable_inv (st : GameState) (h : Reachable st) : VoteKeysInv st := by
  induction h with
  | created gid req st hok => exact inv_create gid req st hok
  | started st shuffled _ ih => exact inv_start st shuffled ih
  | acted st pid a payload _ ih => exact inv_apply_action st pid a payload ih

theorem reachable_sOneVote : Reachable sOneVote := by
  have h0 : Reachable sCreated :=
    Reachable.created "g" reqFive sCreated (by rfl)
  have h1 : Reachable sStarted := Reachable.started sCreated rolesFive h0
  have h2 : Reachable sProposed :=
    Reachable.acted sStarted "p0" "propose_team" proposePayload h1
  exact Reachable.acted sProposed "p2" "vote_team" approvePayload h2

/-- C9 counterexample: a reachable state (create, start, propose, one team
vote by non-team-member `p2`) whose `team_votes` holds an id outside the
proposed team — team votes are cast by all players, not only team members. -/
theorem c9_vote_keys_counterexample :
    Reachable sOneVote ∧
    ∃ k ∈ dictKeys sOneVote.team_votes, k ∉ sOneVote.proposed_team :=
  ⟨reachable_sOneVote, by decide⟩

/-- C9 (amended): in every state reachable through the public operations,
`quest_votes` holds no id outside the current proposed team, and `team_votes`
holds only known player ids (every player votes on the team, so its keys are
not limited to the team). -/
theorem c9_vote_keys_amended (st : GameState) (h : Reachable st) :
    (∀ k ∈ dictKeys st.quest_votes, k ∈ st.proposed_team) ∧
    (∀ k ∈ dictKeys st.team_votes, k ∈ st.players.map Player.id) := by
  obtain ⟨h1, _, h3, _⟩ := reachable_inv st h
  exact ⟨h1, h3⟩

/-- C9 witness: the amended invariant evaluated on the reachable state
`sOneVote`. -/
theorem c9_vote_keys_amended_witness :
    (∀ k ∈ dictKeys sOneVote.quest_votes, k ∈ sOneVote.proposed_team) ∧
    (∀ k ∈ dictKeys sOneVote.team_votes, k ∈ sOneVote.players.map Player.id) :=
  c9_vote_keys_amended sOneVote reachable_sOneVote

end Avalon
